import Mathlib

/-!
# ElementosDeSeguridad, class_04b

A shallow embedding of the three source files of the DemoYork API backend:

* `server.js`: the role seeding step `initial`, and the configuration of the
  session cookie (`expiryDate`, the options handed to `cookieSession`);
* `routes/rout_Categories.js` and `routes/rout_Users.js`: the routing tables
  with their pre-check chains.

The document store is a list of documents in insertion order, time is a count
of milliseconds since the epoch (what `Date.now()` returns).
-/

namespace ElementosDeSeguridad

/-! ## Roles and the seeding step (server.js, lines 85-114) -/

/-- A document of the Roles collection: the three fields `initial` writes. -/
structure Role where
  name : String
  level : Int
  description : String
deriving DecidableEq, Repr

/-- The Roles collection, its documents in insertion order. -/
abbrev Collection := List Role

/-- The error a write to the collection can be rejected with. -/
inductive StoreError where
  | duplicateKey (name : String)
deriving DecidableEq, Repr

/-- The count `Roles.estimatedDocumentCount()` resolves to. -/
def estimatedDocumentCount (c : Collection) : Nat := c.length

/-- Modelled from the spec: the Roles schema (models/mdl_Roles.js) is not among
the sources; the spec gives the collection as unique on `name`. Writing one
document is rejected when a document of that name is stored, and appends the
document otherwise. -/
def insertOne (doc : Role) (c : Collection) : Except StoreError Collection :=
  if c.any (fun r => r.name == doc.name) then .error (.duplicateKey doc.name)
  else .ok (c ++ [doc])

/-- The ordered bulk write `Roles.insertMany(docs)`: documents are written in
order and the write stops at the first rejected one. The result is the
collection as the write leaves it, and the error when the promise rejects. -/
def insertMany : List Role → Collection → Collection × Option StoreError
  | [], c => (c, none)
  | doc :: docs, c =>
    match insertOne doc c with
    | .error e => (c, some e)
    | .ok c1 => insertMany docs c1

/-- The array `newRoles` of `initial` (server.js, lines 90-105). -/
def newRoles : List Role :=
  [ ⟨"customer", 1, "Business client"⟩,
    ⟨"user", 3, "Normal user"⟩,
    ⟨"admin", 5, "Administrator"⟩ ]

/-- The function `initial` of server.js, as the collection it leaves behind:
when the document count is zero the three roles are written with `insertMany`,
whose `then` and `catch` callbacks both only log; otherwise nothing is
written. -/
def initial (c : Collection) : Collection :=
  if estimatedDocumentCount c = 0 then (insertMany newRoles c).1 else c

/-- The error `initial` logs in its `catch` callback, if the write rejects. -/
def initialError (c : Collection) : Option StoreError :=
  if estimatedDocumentCount c = 0 then (insertMany newRoles c).2 else none

/-- The names stored in a collection, in insertion order. -/
def roleNames (c : Collection) : List String := c.map Role.name

/-! ## The session cookie (server.js, lines 35-44) -/

/-- The expression `new Date( Date.now() + 60 * 60 * 1000 )` that server.js
binds to `expiryDate`, as milliseconds since the epoch; `now` is the value
`Date.now()` has when the statement runs. -/
def expiryDate (now : Nat) : Nat := now + 60 * 60 * 1000

/-- The options object handed to `cookieSession`. -/
structure CookieSessionOptions where
  name : String
  secret : String
  httpOnly : Bool
  expires : Nat
deriving DecidableEq, Repr

/-- The options server.js builds. The module body runs once, when the process
starts: `startup` is the value of `Date.now()` at that moment. -/
def cookieSessionOptions (startup : Nat) : CookieSessionOptions :=
  ⟨"demoyork-session", "COOKIE_SECRET", true, expiryDate startup⟩

/-- The expiry instant of the session cookie written for a session issued at
time `issuedAt`: the middleware passes its `expires` option through to every
cookie it sets, so the instant does not depend on `issuedAt`. -/
def sessionCookieExpires (opts : CookieSessionOptions) (_issuedAt : Nat) : Nat :=
  opts.expires

/-! ## The routing tables (routes/rout_Categories.js, routes/rout_Users.js) -/

/-- The HTTP methods the routers register. -/
inductive Method where
  | GET | POST | PUT | DELETE
deriving DecidableEq, Repr

/-- The pre-check functions imported from middleware/func_Users.js. -/
inductive Middleware where
  | verifyToken | isAdmin | isUser | verifyRol | verifyDuplicates
deriving DecidableEq, Repr

/-- The controller functions imported from controllers/ctrl_Categories.js and
controllers/ctrl_Users.js. -/
inductive Handler where
  | getCategories | addCategories | updCategories | delCategories
  | signup | signin | signout
deriving DecidableEq, Repr

/-- One registration `router.METHOD(path, [chain], handler)`. -/
structure Route where
  method : Method
  path : String
  chain : List Middleware
  handler : Handler
deriving DecidableEq, Repr

/-- The router `categories` of routes/rout_Categories.js, lines 7-10. -/
def categories : List Route :=
  [ ⟨.GET, "/", [], .getCategories⟩,
    ⟨.POST, "/", [.verifyToken, .isUser], .addCategories⟩,
    ⟨.PUT, "/", [.verifyToken, .isAdmin], .updCategories⟩,
    ⟨.DELETE, "/", [.verifyToken, .isAdmin], .delCategories⟩ ]

/-- The router `users` of routes/rout_Users.js, lines 7-9. -/
def users : List Route :=
  [ ⟨.POST, "/signup", [.verifyDuplicates, .verifyRol], .signup⟩,
    ⟨.POST, "/signin", [], .signin⟩,
    ⟨.POST, "/signout", [], .signout⟩ ]

/-- A router mounted with `app.use(base, router)`: each route with the base
path it is reached under. -/
def mount (base : String) (router : List Route) : List (String × Route) :=
  router.map (fun r => (base, r))

/-- The routes the two routers contribute to the application, in the order of
server.js, lines 135-136. -/
def routerRoutes : List (String × Route) :=
  mount "/users" users ++ mount "/categories" categories

/-- The routes that carry a pre-check chain. -/
def protectedRoutes : List (String × Route) :=
  routerRoutes.filter (fun br => !br.2.chain.isEmpty)

/-- Whether a pre-check is one of the two role gates. -/
def Middleware.isRoleGate : Middleware → Bool
  | .isAdmin => true
  | .isUser => true
  | _ => false

/-! ## Dispatch of a route's callbacks

The framework calls the callbacks of a registration in order, each with the
request and a continuation `next`; a callback either calls `next` or ends the
request with an error reply. -/

/-- What one pre-check does: hand the request on, or end it with an error. -/
inductive StepResult (Req Err : Type) where
  | next (req : Req)
  | abort (err : Err)

/-- A callback of a registration: a pre-check or the final handler. -/
inductive Callback where
  | middleware (m : Middleware)
  | handler (h : Handler)
deriving DecidableEq, Repr

/-- The run of a chain of pre-checks: the pre-checks called, in order, and the
request as the last one handed it on, or the error of the one that ended it. -/
def runChain {Req Err : Type} (step : Middleware → Req → StepResult Req Err) :
    List Middleware → Req → List Middleware × Except Err Req
  | [], req => ([], .ok req)
  | m :: ms, req =>
    match step m req with
    | .abort e => ([m], .error e)
    | .next req1 => let r := runChain step ms req1; (m :: r.1, r.2)

/-- The record of one dispatched request. -/
structure Dispatch (Req Err : Type) where
  calls : List Callback
  result : Except Err (Handler × Req)

/-- Dispatch of a request to a route: the chain runs first, and the handler is
called, with the request the chain hands on, only when the chain did not end
the request. -/
def dispatch {Req Err : Type} (step : Middleware → Req → StepResult Req Err)
    (r : Route) (req : Req) : Dispatch Req Err :=
  match runChain step r.chain req with
  | (called, .ok req1) =>
    ⟨called.map Callback.middleware ++ [Callback.handler r.handler], .ok (r.handler, req1)⟩
  | (called, .error e) => ⟨called.map Callback.middleware, .error e⟩

/-- The outcome assigned to a pre-check: continue, or abort with an error. -/
inductive Outcome (Err : Type) where
  | continue
  | abort (err : Err)

/-- The step function of an assignment of outcomes to pre-checks: a pre-check
that continues hands the request on unchanged. -/
def assign {Req Err : Type} (outcome : Middleware → Outcome Err) :
    Middleware → Req → StepResult Req Err :=
  fun m req =>
    match outcome m with
    | .continue => .next req
    | .abort e => .abort e

/-! ## The pre-checks of middleware/func_Users.js

The file that defines `verifyToken`, `isAdmin` and `isUser` is not among the
sources. The definitions of this section follow the specification's sections
3, 4.1 to 4.3, 6 and 7. -/

/-- Modelled from the spec: the error taxonomy of section 7 (the middleware
file that raises them is missing). -/
inductive AuthError where
  | InvalidSession | ExpiredSession | UnknownUser | DataIntegrityError
  | Forbidden | Conflict
deriving DecidableEq, Repr

/-- Modelled from the spec: the caller-visible status of each error (section
6): 401 for an invalid or expired session, an unknown user counting as session
invalidity, 403 for role insufficiency, 409 for a duplicate signup, 500 for a
data-integrity violation. -/
def AuthError.status : AuthError → Nat
  | .InvalidSession => 401
  | .ExpiredSession => 401
  | .UnknownUser => 401
  | .DataIntegrityError => 500
  | .Forbidden => 403
  | .Conflict => 409

/-- Modelled from the spec: a user record of section 3 (the schema file
models/mdl_Users.js is missing); the role is referenced by its name. -/
structure User where
  username : String
  email : String
  secretHash : String
  role : String
deriving DecidableEq, Repr

/-- Modelled from the spec: the session artifact of section 3, carrying the
identity, the expiry instant, and the secret it was signed with. -/
structure Session where
  identity : String
  expiry : Nat
  signedWith : String
deriving DecidableEq, Repr

/-- Modelled from the spec: the credential store of section 2, user records
and role records. -/
structure Store where
  users : List User
  roles : Collection

/-- Modelled from the spec: the request-scoped context of section 4.5, the
session artifact the request carries and what earlier steps resolved. -/
structure Context where
  session : Option Session
  identity : Option User
  role : Option Role
deriving DecidableEq, Repr

/-- Modelled from the spec: `parse` of section 4.1 (the codec is missing from
the sources): `InvalidSession` when the signature does not verify,
`ExpiredSession` when the current time is past the expiry. -/
def parse (secret : String) (now : Nat) (s : Session) : Except AuthError String :=
  if s.signedWith ≠ secret then .error .InvalidSession
  else if now > s.expiry then .error .ExpiredSession
  else .ok s.identity

/-- Modelled from the spec: `resolve` of section 4.2 (the resolver is missing
from the sources): decode the artifact, look the user up, load the referenced
role. A request without an artifact has no valid session. -/
def resolve (secret : String) (store : Store) (now : Nat) :
    Option Session → Except AuthError (User × Role)
  | none => .error .InvalidSession
  | some s =>
    match parse secret now s with
    | .error e => .error e
    | .ok identity =>
      match store.users.find? (fun u => u.username == identity) with
      | none => .error .UnknownUser
      | some u =>
        match store.roles.find? (fun r => r.name == u.role) with
        | none => .error .DataIntegrityError
        | some r => .ok (u, r)

/-- Modelled from the spec: the authorization requirement of section 3. -/
inductive Requirement where
  | namedRole (name : String)
  | minLevel (level : Int)
deriving DecidableEq, Repr

/-- Modelled from the spec: the two reasons a denial carries (section 4.3). -/
inductive DenyReason where
  | insufficientPrivilege | wrongRole
deriving DecidableEq, Repr

/-- Modelled from the spec: the result of the authorization gate. -/
inductive Decision where
  | allow
  | deny (reason : DenyReason)
deriving DecidableEq, Repr

/-- Modelled from the spec: `require` of section 4.3 (the gate is missing from
the sources): a named-role requirement allows iff the names are equal, a
minimum-level requirement allows iff the role's level is at least the
required one. -/
def require (q : Requirement) (role : Role) : Decision :=
  match q with
  | .namedRole n => if role.name = n then .allow else .deny .wrongRole
  | .minLevel l => if role.level ≥ l then .allow else .deny .insufficientPrivilege

/-- Modelled from the spec: the requirement `isAdmin` stands for (section 4.5
and the DELETE scenario of section 8): the admin level, 5. -/
def adminRequirement : Requirement := .minLevel 5

/-- Modelled from the spec: the requirement `isUser` stands for (section 4.5):
the user level, 3, or above. -/
def userRequirement : Requirement := .minLevel 3

/-- Modelled from the spec: a role gate as a pipeline step. It reads the role
an earlier step resolved; a denial is `Forbidden`, and a request without a
resolved role has no valid session. -/
def gate (q : Requirement) (ctx : Context) : StepResult Context AuthError :=
  match ctx.role with
  | none => .abort .InvalidSession
  | some role =>
    match require q role with
    | .allow => .next ctx
    | .deny _ => .abort .Forbidden

/-- Modelled from the spec: the pre-checks `verifyToken`, `isAdmin` and
`isUser` as pipeline steps (section 4.5). `verifyToken` resolves the identity
and stores user and role in the context. The two signup pre-checks are taken
as the parameter `signupStep`. -/
def guardStep (secret : String) (store : Store) (now : Nat)
    (signupStep : Middleware → Context → StepResult Context AuthError) :
    Middleware → Context → StepResult Context AuthError
  | .verifyToken, ctx =>
    match resolve secret store now ctx.session with
    | .error e => .abort e
    | .ok (u, r) => .next ⟨ctx.session, some u, some r⟩
  | .isAdmin, ctx => gate adminRequirement ctx
  | .isUser, ctx => gate userRequirement ctx
  | m, ctx => signupStep m ctx

/-- The status the caller sees: the status of the error that ended the
request, or the status `reply` the invoked handler answers with. -/
def Dispatch.status {Req : Type} (reply : Handler → Nat) (d : Dispatch Req AuthError) : Nat :=
  match d.result with
  | .ok (h, _) => reply h
  | .error e => e.status

/-! ## Helper lemmas on seeding -/

theorem count_zero_iff (c : Collection) : estimatedDocumentCount c = 0 ↔ c = [] := by
  simp [estimatedDocumentCount]

theorem insertMany_newRoles_nil : insertMany newRoles [] = (newRoles, none) := by
  decide

theorem initial_nil : initial [] = newRoles := by
  decide

theorem initial_of_ne_nil (c : Collection) (h : c ≠ []) : initial c = c := by
  have hc : estimatedDocumentCount c ≠ 0 := fun h0 => h ((count_zero_iff c).1 h0)
  simp [initial, hc]

theorem initialError_nil : initialError [] = none := by
  decide

theorem roleNames_newRoles_nodup : (roleNames newRoles).Nodup := by
  decide

/-! ## Helper lemmas on dispatch -/

theorem runChain_assign_all {Req Err : Type} (outcome : Middleware → Outcome Err)
    (chain : List Middleware) (req : Req)
    (h : ∀ m ∈ chain, outcome m = .continue) :
    runChain (assign outcome) chain req = (chain, .ok req) := by
  induction chain with
  | nil => rfl
  | cons m ms ih =>
    have hm : outcome m = .continue := h m (List.mem_cons_self _ _)
    have hms := ih (fun x hx => h x (List.mem_cons_of_mem _ hx))
    simp [runChain, assign, hm, hms]

theorem runChain_assign_abort {Req Err : Type} (outcome : Middleware → Outcome Err)
    (pre : List Middleware) (m : Middleware) (post : List Middleware) (e : Err) (req : Req)
    (hpre : ∀ x ∈ pre, outcome x = .continue) (hm : outcome m = .abort e) :
    runChain (assign outcome) (pre ++ m :: post) req = (pre ++ [m], .error e) := by
  induction pre with
  | nil => simp [runChain, assign, hm]
  | cons x xs ih =>
    have hx : outcome x = .continue := hpre x (List.mem_cons_self _ _)
    have hxs := ih (fun y hy => hpre y (List.mem_cons_of_mem _ hy))
    simp [runChain, assign, hx] at hxs ⊢
    simp [hxs]

theorem exists_first_abort {Err : Type} (outcome : Middleware → Outcome Err)
    (chain : List Middleware) (h : ¬ ∀ m ∈ chain, outcome m = .continue) :
    ∃ pre m post e, chain = pre ++ m :: post ∧
      (∀ x ∈ pre, outcome x = .continue) ∧ outcome m = .abort e := by
  induction chain with
  | nil => exact absurd (fun m hm => absurd hm (List.not_mem_nil m)) h
  | cons a as ih =>
    cases ha : outcome a with
    | abort e => exact ⟨[], a, as, e, rfl, fun x hx => absurd hx (List.not_mem_nil x), ha⟩
    | «continue» =>
      have has : ¬ ∀ m ∈ as, outcome m = .continue := by
        intro hall
        apply h
        intro m hm
        rcases List.mem_cons.1 hm with rfl | hm
        · exact ha
        · exact hall m hm
      obtain ⟨pre, m, post, e, hsplit, hpre, hm⟩ := ih has
      refine ⟨a :: pre, m, post, e, by simp [hsplit], ?_, hm⟩
      intro x hx
      rcases List.mem_cons.1 hx with rfl | hx
      · exact ha
      · exact hpre x hx

theorem dispatch_assign_all {Req Err : Type} (outcome : Middleware → Outcome Err)
    (r : Route) (req : Req) (h : ∀ m ∈ r.chain, outcome m = .continue) :
    (dispatch (assign outcome) r req).calls
        = r.chain.map Callback.middleware ++ [Callback.handler r.handler] ∧
      (dispatch (assign outcome) r req).result = .ok (r.handler, req) := by
  simp [dispatch, runChain_assign_all outcome r.chain req h]

theorem dispatch_assign_abort {Req Err : Type} (outcome : Middleware → Outcome Err)
    (r : Route) (req : Req) (pre : List Middleware) (m : Middleware)
    (post : List Middleware) (e : Err) (hsplit : r.chain = pre ++ m :: post)
    (hpre : ∀ x ∈ pre, outcome x = .continue) (hm : outcome m = .abort e) :
    (dispatch (assign outcome) r req).calls = (pre ++ [m]).map Callback.middleware ∧
      (dispatch (assign outcome) r req).result = .error e := by
  simp [dispatch, hsplit, runChain_assign_abort outcome pre m post e req hpre hm]

theorem handler_not_mem_middleware (h : Handler) (ms : List Middleware) :
    Callback.handler h ∉ ms.map Callback.middleware := by
  simp

theorem dispatch_nil_chain {Req Err : Type} (step : Middleware → Req → StepResult Req Err)
    (r : Route) (req : Req) (h : r.chain = []) :
    (dispatch step r req).calls = [Callback.handler r.handler] ∧
      (dispatch step r req).result = .ok (r.handler, req) := by
  simp [dispatch, h, runChain]

/-! ## Helper lemmas on the identity resolver -/

theorem resolve_role_mem (secret : String) (store : Store) (now : Nat)
    (s : Option Session) (u : User) (role : Role)
    (h : resolve secret store now s = .ok (u, role)) : role ∈ store.roles := by
  unfold resolve at h
  split at h
  · simp at h
  · split at h
    · simp at h
    · split at h
      · simp at h
      · split at h
        · simp at h
        · rename_i r hfind
          simp only [Except.ok.injEq, Prod.mk.injEq] at h
          obtain ⟨_, rfl⟩ := h
          exact List.mem_of_find?_eq_some hfind

theorem seeded_role_of_name (role : Role) (h : role ∈ initial []) :
    (role.name = "user" → role.level = 3) ∧ (role.name = "admin" → role.level = 5) := by
  rw [initial_nil] at h
  simp only [newRoles, List.mem_cons, List.mem_singleton, List.not_mem_nil, or_false] at h
  rcases h with rfl | rfl | rfl <;> simp

/-! ## Seeding: postcondition, idempotence, invariant -/

/-- C1: for every role collection `c`, when the document count of `c` is zero
(which is when `c` is empty) the collection after `initial` is exactly the
three roles customer (level 1), user (level 3), admin (level 5), written
without error; when the count is not zero the collection after `initial` is
`c` itself. -/
theorem initial_postcondition (c : Collection) :
    (estimatedDocumentCount c = 0 ↔ c = []) ∧
    (estimatedDocumentCount c = 0 →
      initial c =
        [ ⟨"customer", 1, "Business client"⟩, ⟨"user", 3, "Normal user"⟩,
          ⟨"admin", 5, "Administrator"⟩ ] ∧
      initialError c = none) ∧
    (estimatedDocumentCount c ≠ 0 → initial c = c) := by
  refine ⟨count_zero_iff c, ?_, ?_⟩
  · intro h
    have hc : c = [] := (count_zero_iff c).1 h
    subst hc
    exact ⟨initial_nil, initialError_nil⟩
  · intro h
    exact initial_of_ne_nil c (fun hc => h ((count_zero_iff c).2 hc))

/-- The postcondition C1 at the empty collection and at a collection that
holds one role. -/
theorem initial_postcondition_witness :
    (initial [] =
      [ ⟨"customer", 1, "Business client"⟩, ⟨"user", 3, "Normal user"⟩,
        ⟨"admin", 5, "Administrator"⟩ ]) ∧
    initial [⟨"guest", 0, "Visitor"⟩] = [⟨"guest", 0, "Visitor"⟩] :=
  ⟨((initial_postcondition []).2.1 (by decide)).1,
   (initial_postcondition [⟨"guest", 0, "Visitor"⟩]).2.2 (by decide)⟩

/-- C2: seeding is idempotent: for every role collection `c`, running
`initial` twice gives the collection one run gives; a second startup after a
first one on the empty collection leaves exactly three roles. -/
theorem initial_idempotent (c : Collection) :
    initial (initial c) = initial c ∧
    estimatedDocumentCount (initial (initial [])) = 3 := by
  refine ⟨?_, by decide⟩
  by_cases hc : c = []
  · subst hc
    decide
  · rw [initial_of_ne_nil c hc, initial_of_ne_nil c hc]

/-- C9: seeding preserves the uniqueness of role names: when the names of `c`
are pairwise distinct, so are the names of the collection after `initial`;
the three seeded roles have pairwise distinct names and the strictly
increasing levels 1, 3, 5, and any two seeded roles are equal or strictly
ordered by level. -/
theorem initial_preserves_unique_names (c : Collection)
    (h : (roleNames c).Nodup) :
    (roleNames (initial c)).Nodup ∧
    (roleNames newRoles).Nodup ∧
    roleNames newRoles = ["customer", "user", "admin"] ∧
    newRoles.map Role.level = [1, 3, 5] ∧
    List.Pairwise (fun r s => r.level < s.level) newRoles ∧
    (∀ r ∈ newRoles, ∀ s ∈ newRoles, r.level < s.level ∨ r = s ∨ s.level < r.level) := by
  refine ⟨?_, roleNames_newRoles_nodup, by decide, by decide, by decide, by decide⟩
  by_cases hc : c = []
  · subst hc
    rw [initial_nil]
    exact roleNames_newRoles_nodup
  · rw [initial_of_ne_nil c hc]
    exact h

/-- The invariant C9 at a collection of two roles with distinct names. -/
theorem initial_preserves_unique_names_witness :
    (roleNames [⟨"guest", 0, "Visitor"⟩, ⟨"root", 9, "Operator"⟩]).Nodup ∧
    (roleNames (initial [⟨"guest", 0, "Visitor"⟩, ⟨"root", 9, "Operator"⟩])).Nodup :=
  ⟨by decide,
   (initial_preserves_unique_names
      [⟨"guest", 0, "Visitor"⟩, ⟨"root", 9, "Operator"⟩] (by decide)).1⟩

/-! ## The session cookie -/

/-- C3: the expiry of the session cookie is not the issue time plus one hour.
The cookie written for a session issued at any time `t` carries the instant
computed once at startup, `startup + 3600000`: with the process started at
1700000000000, a session issued one second later, at 1700000001000, gets the
expiry 1700003600000, which is not 1700000001000 + 3600000. -/
theorem session_expiry_fixed_at_startup :
    (∀ startup t : Nat,
      sessionCookieExpires (cookieSessionOptions startup) t = startup + 3600000) ∧
    sessionCookieExpires (cookieSessionOptions 1700000000000) 1700000001000
      = 1700003600000 ∧
    sessionCookieExpires (cookieSessionOptions 1700000000000) 1700000001000
      ≠ 1700000001000 + 3600000 := by
  refine ⟨fun startup t => ?_, by decide, by decide⟩
  simp [sessionCookieExpires, cookieSessionOptions, expiryDate]

/-! ## The pipelines of the routing tables -/

/-- C4: every category-mutation route of the categories router (POST, PUT and
DELETE, all on "/") has the chain `[verifyToken, gate]` with one role gate,
`isAdmin` for DELETE and for PUT and `isUser` for POST; when both pre-checks
continue the callbacks run in the order `verifyToken`, gate, handler. Each of
the three methods is registered exactly once. -/
theorem write_pipeline_composition (r : Route) (hr : r ∈ categories)
    (hm : r.method = .POST ∨ r.method = .PUT ∨ r.method = .DELETE) :
    r.path = "/" ∧
    (∃ g : Middleware, g.isRoleGate = true ∧ r.chain = [.verifyToken, g] ∧
      (r.method = .DELETE ∨ r.method = .PUT → g = .isAdmin) ∧
      (r.method = .POST → g = .isUser) ∧
      ∀ (Req Err : Type) (req : Req),
        (dispatch (assign (fun _ => (Outcome.continue : Outcome Err))) r req).calls
          = [.middleware .verifyToken, .middleware g, .handler r.handler]) ∧
    (categories.filter (fun x => x.method != .GET)).map
        (fun x => (x.method, x.chain, x.handler))
      = [ (.POST, [.verifyToken, .isUser], .addCategories),
          (.PUT, [.verifyToken, .isAdmin], .updCategories),
          (.DELETE, [.verifyToken, .isAdmin], .delCategories) ] := by
  refine ⟨?_, ?_, by decide⟩
  · simp only [categories, List.mem_cons, List.mem_singleton, List.not_mem_nil, or_false] at hr
    rcases hr with rfl | rfl | rfl | rfl <;> rfl
  · simp only [categories, List.mem_cons, List.mem_singleton, List.not_mem_nil, or_false] at hr
    rcases hr with rfl | rfl | rfl | rfl
    · simp at hm
    · refine ⟨.isUser, rfl, rfl, by simp, by simp, fun Req Err req => ?_⟩
      exact (dispatch_assign_all _ _ req (fun _ _ => rfl)).1
    · refine ⟨.isAdmin, rfl, rfl, by simp, by simp, fun Req Err req => ?_⟩
      exact (dispatch_assign_all _ _ req (fun _ _ => rfl)).1
    · refine ⟨.isAdmin, rfl, rfl, by simp, by simp, fun Req Err req => ?_⟩
      exact (dispatch_assign_all _ _ req (fun _ _ => rfl)).1

/-- The composition C4 at the DELETE registration. -/
theorem write_pipeline_composition_witness :
    (⟨.DELETE, "/", [.verifyToken, .isAdmin], .delCategories⟩ : Route) ∈ categories ∧
    ∃ g : Middleware, g.isRoleGate = true ∧
      [Middleware.verifyToken, Middleware.isAdmin] = [.verifyToken, g] ∧ g = .isAdmin :=
  ⟨by decide,
   (write_pipeline_composition ⟨.DELETE, "/", [.verifyToken, .isAdmin], .delCategories⟩
      (by decide) (Or.inr (Or.inr rfl))).2.1.imp
    (fun _ h => ⟨h.1, h.2.1, h.2.2.1 (Or.inl rfl)⟩)⟩

/-- C5: the registration for POST "/signup" on the users router, mounted at
"/users", has the chain `[verifyDuplicates, verifyRol]` and the handler
`signup`; whatever the pre-checks do, the callbacks called are an initial part
of `verifyDuplicates`, `verifyRol`, `signup`, so `signup` is called only after
both pre-checks, the duplicate check first. -/
theorem signup_pipeline_order (br : String × Route) (hbr : br ∈ routerRoutes)
    (hbase : br.1 = "/users") (hpath : br.2.path = "/signup") :
    br.2.method = .POST ∧
    br.2.chain = [.verifyDuplicates, .verifyRol] ∧
    br.2.handler = .signup ∧
    ∀ (Req Err : Type) (step : Middleware → Req → StepResult Req Err) (req : Req),
      (∃ rest, (dispatch step br.2 req).calls ++ rest
          = [.middleware .verifyDuplicates, .middleware .verifyRol, .handler .signup]) ∧
      (Callback.handler .signup ∈ (dispatch step br.2 req).calls →
        (dispatch step br.2 req).calls
          = [.middleware .verifyDuplicates, .middleware .verifyRol, .handler .signup]) := by
  obtain ⟨base, r⟩ := br
  simp only [routerRoutes, mount, users, categories, List.map_cons, List.map_nil,
    List.cons_append, List.nil_append, List.mem_cons, List.mem_singleton, List.not_mem_nil,
    or_false, Prod.mk.injEq] at hbr
  simp only at hbase hpath
  rcases hbr with ⟨rfl, rfl⟩ | ⟨rfl, rfl⟩ | ⟨rfl, rfl⟩ | ⟨rfl, rfl⟩ | ⟨rfl, rfl⟩ |
    ⟨rfl, rfl⟩ | ⟨rfl, rfl⟩ <;> simp at hbase hpath
  refine ⟨rfl, rfl, rfl, fun Req Err step req => ?_⟩
  cases h1 : step .verifyDuplicates req with
  | abort e => simp [dispatch, runChain, h1]
  | next req1 =>
    cases h2 : step .verifyRol req1 with
    | abort e => simp [dispatch, runChain, h1, h2]
    | next req2 => simp [dispatch, runChain, h1, h2]

/-- The order C5 at the signup registration itself. -/
theorem signup_pipeline_order_witness :
    (("/users", ⟨.POST, "/signup", [.verifyDuplicates, .verifyRol], .signup⟩) :
        String × Route) ∈ routerRoutes ∧
    (⟨.POST, "/signup", [.verifyDuplicates, .verifyRol], .signup⟩ : Route).chain
      = [.verifyDuplicates, .verifyRol] :=
  ⟨by decide,
   (signup_pipeline_order ("/users", ⟨.POST, "/signup", [.verifyDuplicates, .verifyRol], .signup⟩)
      (by decide) rfl rfl).2.1⟩

/-- C6: for every route that carries a pre-check chain and every assignment
of outcomes to the pre-checks, the handler is called iff every pre-check of
the chain continues, and then it gets the request; otherwise the chain splits
at a first aborting pre-check, the result is that pre-check's error, and the
callbacks called are the pre-checks up to and including it, nothing after. On
the signup route, when `verifyDuplicates` aborts it is the only callback
called: neither `verifyRol` nor `signup` is reached. -/
theorem pipeline_short_circuit {Req Err : Type} (br : String × Route)
    (hbr : br ∈ protectedRoutes) (outcome : Middleware → Outcome Err) (req : Req) :
    (Callback.handler br.2.handler ∈ (dispatch (assign outcome) br.2 req).calls ↔
      ∀ m ∈ br.2.chain, outcome m = .continue) ∧
    ((∀ m ∈ br.2.chain, outcome m = .continue) →
      (dispatch (assign outcome) br.2 req).result = .ok (br.2.handler, req)) ∧
    ((¬ ∀ m ∈ br.2.chain, outcome m = .continue) →
      ∃ pre m post e, br.2.chain = pre ++ m :: post ∧
        (∀ x ∈ pre, outcome x = .continue) ∧ outcome m = .abort e ∧
        (dispatch (assign outcome) br.2 req).result = .error e ∧
        (dispatch (assign outcome) br.2 req).calls = (pre ++ [m]).map Callback.middleware) ∧
    (∀ pre m post e, br.2.chain = pre ++ m :: post →
      (∀ x ∈ pre, outcome x = .continue) → outcome m = .abort e →
        (dispatch (assign outcome) br.2 req).result = .error e ∧
        (dispatch (assign outcome) br.2 req).calls = (pre ++ [m]).map Callback.middleware) ∧
    (br.2.handler = .signup → ∀ e, outcome .verifyDuplicates = .abort e →
      (dispatch (assign outcome) br.2 req).result = .error e ∧
      (dispatch (assign outcome) br.2 req).calls = [.middleware .verifyDuplicates] ∧
      Callback.middleware .verifyRol ∉ (dispatch (assign outcome) br.2 req).calls ∧
      Callback.handler .signup ∉ (dispatch (assign outcome) br.2 req).calls) := by
  have hsplit : ∀ pre m post e, br.2.chain = pre ++ m :: post →
      (∀ x ∈ pre, outcome x = .continue) → outcome m = .abort e →
        (dispatch (assign outcome) br.2 req).result = .error e ∧
        (dispatch (assign outcome) br.2 req).calls = (pre ++ [m]).map Callback.middleware :=
    fun pre m post e hs hpre hm =>
      ⟨(dispatch_assign_abort outcome br.2 req pre m post e hs hpre hm).2,
       (dispatch_assign_abort outcome br.2 req pre m post e hs hpre hm).1⟩
  refine ⟨⟨?_, ?_⟩, ?_, ?_, hsplit, ?_⟩
  · intro hmem
    by_contra hnot
    obtain ⟨pre, m, post, e, hs, hpre, hm⟩ := exists_first_abort outcome br.2.chain hnot
    rw [(hsplit pre m post e hs hpre hm).2] at hmem
    exact handler_not_mem_middleware _ _ hmem
  · intro hall
    rw [(dispatch_assign_all outcome br.2 req hall).1]
    simp
  · intro hall
    exact (dispatch_assign_all outcome br.2 req hall).2
  · intro hnot
    obtain ⟨pre, m, post, e, hs, hpre, hm⟩ := exists_first_abort outcome br.2.chain hnot
    exact ⟨pre, m, post, e, hs, hpre, hm, hsplit pre m post e hs hpre hm⟩
  · intro hh e he
    have hchain : br.2.chain = [] ++ Middleware.verifyDuplicates :: [Middleware.verifyRol] := by
      obtain ⟨base, r⟩ := br
      simp only [protectedRoutes, routerRoutes, mount, users, categories, List.map_cons,
        List.map_nil, List.cons_append, List.nil_append] at hbr
      simp at hbr
      rcases hbr with ⟨rfl, rfl⟩ | ⟨rfl, rfl⟩ | ⟨rfl, rfl⟩ | ⟨rfl, rfl⟩ <;> simp at hh ⊢
    have h := hsplit [] .verifyDuplicates [.verifyRol] e hchain
      (fun x hx => absurd hx (List.not_mem_nil x)) he
    refine ⟨h.1, by simpa using h.2, ?_, ?_⟩ <;> rw [h.2] <;> simp

/-- The short circuit C6 on the signup route, with `verifyDuplicates` aborting
with `Conflict` and every other pre-check continuing. -/
theorem pipeline_short_circuit_witness :
    (("/users", ⟨.POST, "/signup", [.verifyDuplicates, .verifyRol], .signup⟩) :
        String × Route) ∈ protectedRoutes ∧
    (dispatch
        (assign (fun m => if m = .verifyDuplicates then Outcome.abort AuthError.Conflict
          else Outcome.continue))
        ⟨.POST, "/signup", [.verifyDuplicates, .verifyRol], .signup⟩ ()).calls
      = [.middleware .verifyDuplicates] :=
  ⟨by decide,
   ((pipeline_short_circuit
      ("/users", ⟨.POST, "/signup", [.verifyDuplicates, .verifyRol], .signup⟩) (by decide)
      (fun m => if m = .verifyDuplicates then Outcome.abort AuthError.Conflict
        else Outcome.continue) ()).2.2.2.2 rfl AuthError.Conflict rfl).2.1⟩

/-- C10: of the seven routes the users and categories routers register,
exactly four carry a pre-check chain: POST /users/signup and POST, PUT, DELETE
on /categories. The other three, POST /users/signin, POST /users/signout and
GET /categories, have an empty chain, and on a route with an empty chain the
handler is the only callback called, with the request as it came in, whatever
the pre-checks would do. Every role gate in a chain has `verifyToken` right
before it. -/
theorem guarded_route_set :
    routerRoutes.length = 7 ∧
    (routerRoutes.filter (fun br => !br.2.chain.isEmpty)).map
        (fun br => (br.1, br.2.method, br.2.path))
      = [ ("/users", .POST, "/signup"), ("/categories", .POST, "/"),
          ("/categories", .PUT, "/"), ("/categories", .DELETE, "/") ] ∧
    protectedRoutes.length = 4 ∧
    (routerRoutes.filter (fun br => br.2.chain.isEmpty)).map
        (fun br => (br.1, br.2.method, br.2.path, br.2.handler))
      = [ ("/users", .POST, "/signin", .signin), ("/users", .POST, "/signout", .signout),
          ("/categories", .GET, "/", .getCategories) ] ∧
    (∀ br ∈ routerRoutes, br.2.chain = [] →
      ∀ (Req Err : Type) (step : Middleware → Req → StepResult Req Err) (req : Req),
        (dispatch step br.2 req).calls = [.handler br.2.handler] ∧
        (dispatch step br.2 req).result = .ok (br.2.handler, req)) ∧
    (∀ br ∈ routerRoutes, ∀ (i : Nat) (g : Middleware),
      br.2.chain[i]? = some g → g.isRoleGate = true →
        ∃ j, i = j + 1 ∧ br.2.chain[j]? = some .verifyToken) := by
  refine ⟨by decide, by decide, by decide, by decide, ?_, ?_⟩
  · intro br _ hnil Req Err step req
    exact dispatch_nil_chain step br.2 req hnil
  · intro br hbr i g hi hg
    obtain ⟨base, r⟩ := br
    simp only [routerRoutes, mount, users, categories, List.map_cons, List.map_nil,
      List.cons_append, List.nil_append, List.mem_cons, List.mem_singleton, List.not_mem_nil,
      or_false, Prod.mk.injEq] at hbr
    rcases hbr with ⟨rfl, rfl⟩ | ⟨rfl, rfl⟩ | ⟨rfl, rfl⟩ | ⟨rfl, rfl⟩ | ⟨rfl, rfl⟩ |
      ⟨rfl, rfl⟩ | ⟨rfl, rfl⟩ <;>
    rcases i with _ | _ | i <;> simp at hi <;> subst hi <;>
    first
      | exact absurd hg (by decide)
      | exact ⟨0, rfl, rfl⟩

/-! ## The role gates -/

/-- C8: minimum-level gating is monotone in the role level: for roles `r1`,
`r2` with `r1.level < r2.level`, the requirement of level `r2.level` denies
`r1` and allows `r2` and every role of level at least `r2.level`. On the
seeded roles, the user requirement (level 3) denies customer and allows user
and admin, and the admin requirement (level 5) denies customer and user and
allows admin only. -/
theorem min_level_monotone (r1 r2 : Role) (h : r1.level < r2.level) :
    require (.minLevel r2.level) r1 = .deny .insufficientPrivilege ∧
    require (.minLevel r2.level) r2 = .allow ∧
    (∀ r : Role, r.level ≥ r2.level → require (.minLevel r2.level) r = .allow) ∧
    newRoles.map (fun r => (r.name, r.level, require userRequirement r))
      = [ ("customer", 1, .deny .insufficientPrivilege), ("user", 3, .allow),
          ("admin", 5, .allow) ] ∧
    newRoles.map (fun r => (r.name, r.level, require adminRequirement r))
      = [ ("customer", 1, .deny .insufficientPrivilege),
          ("user", 3, .deny .insufficientPrivilege), ("admin", 5, .allow) ] ∧
    (∀ r ∈ newRoles, require adminRequirement r = .allow ↔ r.name = "admin") := by
  refine ⟨?_, ?_, ?_, by decide, by decide, by decide⟩
  · simp [require, not_le.2 h]
  · simp [require]
  · intro r hr
    simp [require, hr]

/-- The monotonicity C8 at the seeded roles customer (level 1) and user
(level 3). -/
theorem min_level_monotone_witness :
    ((⟨"customer", 1, "Business client"⟩ : Role).level
        < (⟨"user", 3, "Normal user"⟩ : Role).level) ∧
    require (.minLevel 3) ⟨"customer", 1, "Business client"⟩ = .deny .insufficientPrivilege ∧
    require (.minLevel 3) ⟨"user", 3, "Normal user"⟩ = .allow :=
  ⟨by decide,
   (min_level_monotone ⟨"customer", 1, "Business client"⟩ ⟨"user", 3, "Normal user"⟩
      (by decide)).1,
   (min_level_monotone ⟨"customer", 1, "Business client"⟩ ⟨"user", 3, "Normal user"⟩
      (by decide)).2.1⟩

/-- C7: with the seeded roles in the store, a DELETE on the categories router
whose session resolves to a user and a role: the chain is `[verifyToken,
isAdmin]`; when the role is "user" (level 3) the request ends with `Forbidden`,
status 403, after the two pre-checks, and `delCategories` is not called; when
the role is "admin" (level 5) both pre-checks continue and `delCategories` is
called with the resolved user and role, and the status is the one
`delCategories` answers with (200 when it answers 200). -/
theorem delete_category_scenario (secret : String) (store : Store) (now : Nat)
    (signupStep : Middleware → Context → StepResult Context AuthError)
    (reply : Handler → Nat) (ctx : Context) (u : User) (role : Role) (r : Route)
    (hr : r ∈ categories) (hm : r.method = .DELETE)
    (hroles : store.roles = initial [])
    (hres : resolve secret store now ctx.session = .ok (u, role)) :
    r.chain = [.verifyToken, .isAdmin] ∧ r.handler = .delCategories ∧
    (role.name = "user" →
      role.level = 3 ∧
      (dispatch (guardStep secret store now signupStep) r ctx).result = .error .Forbidden ∧
      (dispatch (guardStep secret store now signupStep) r ctx).status reply = 403 ∧
      (dispatch (guardStep secret store now signupStep) r ctx).calls
        = [.middleware .verifyToken, .middleware .isAdmin] ∧
      Callback.handler .delCategories
        ∉ (dispatch (guardStep secret store now signupStep) r ctx).calls) ∧
    (role.name = "admin" →
      role.level = 5 ∧
      (dispatch (guardStep secret store now signupStep) r ctx).result
        = .ok (.delCategories, ⟨ctx.session, some u, some role⟩) ∧
      (dispatch (guardStep secret store now signupStep) r ctx).calls
        = [.middleware .verifyToken, .middleware .isAdmin, .handler .delCategories] ∧
      (dispatch (guardStep secret store now signupStep) r ctx).status reply
        = reply .delCategories ∧
      (reply .delCategories = 200 →
        (dispatch (guardStep secret store now signupStep) r ctx).status reply = 200)) := by
  have hmem : role ∈ initial [] := by
    rw [← hroles]
    exact resolve_role_mem secret store now ctx.session u role hres
  have hlev := seeded_role_of_name role hmem
  simp only [categories, List.mem_cons, List.mem_singleton, List.not_mem_nil, or_false] at hr
  rcases hr with rfl | rfl | rfl | rfl <;> simp at hm
  refine ⟨rfl, rfl, ?_, ?_⟩
  · intro hname
    have h3 : role.level = 3 := hlev.1 hname
    simp [dispatch, runChain, guardStep, hres, gate, require, adminRequirement, h3,
      Dispatch.status, AuthError.status]
  · intro hname
    have h5 : role.level = 5 := hlev.2 hname
    simp [dispatch, runChain, guardStep, hres, gate, require, adminRequirement, h5,
      Dispatch.status]

/-- The scenario C7 for the users "alice", whose role is "user", and "admin1",
whose role is "admin": the store holds the seeded roles, the sessions are
signed with the configured secret and have not expired. -/
theorem delete_category_scenario_witness :
    (dispatch
        (guardStep "COOKIE_SECRET"
          ⟨[⟨"alice", "alice@example.org", "h1", "user"⟩,
            ⟨"admin1", "admin1@example.org", "h2", "admin"⟩], initial []⟩ 1000
          (fun _ c => .next c))
        ⟨.DELETE, "/", [.verifyToken, .isAdmin], .delCategories⟩
        ⟨some ⟨"alice", 3600000, "COOKIE_SECRET"⟩, none, none⟩).result
      = .error .Forbidden ∧
    (dispatch
        (guardStep "COOKIE_SECRET"
          ⟨[⟨"alice", "alice@example.org", "h1", "user"⟩,
            ⟨"admin1", "admin1@example.org", "h2", "admin"⟩], initial []⟩ 1000
          (fun _ c => .next c))
        ⟨.DELETE, "/", [.verifyToken, .isAdmin], .delCategories⟩
        ⟨some ⟨"admin1", 3600000, "COOKIE_SECRET"⟩, none, none⟩).calls
      = [.middleware .verifyToken, .middleware .isAdmin, .handler .delCategories] :=
  ⟨((delete_category_scenario "COOKIE_SECRET"
      ⟨[⟨"alice", "alice@example.org", "h1", "user"⟩,
        ⟨"admin1", "admin1@example.org", "h2", "admin"⟩], initial []⟩ 1000
      (fun _ c => .next c) (fun _ => 200)
      ⟨some ⟨"alice", 3600000, "COOKIE_SECRET"⟩, none, none⟩
      ⟨"alice", "alice@example.org", "h1", "user"⟩ ⟨"user", 3, "Normal user"⟩
      ⟨.DELETE, "/", [.verifyToken, .isAdmin], .delCategories⟩
      (by decide) rfl rfl (by rfl)).2.2.1 rfl).2.1,
   ((delete_category_scenario "COOKIE_SECRET"
      ⟨[⟨"alice", "alice@example.org", "h1", "user"⟩,
        ⟨"admin1", "admin1@example.org", "h2", "admin"⟩], initial []⟩ 1000
      (fun _ c => .next c) (fun _ => 200)
      ⟨some ⟨"admin1", 3600000, "COOKIE_SECRET"⟩, none, none⟩
      ⟨"admin1", "admin1@example.org", "h2", "admin"⟩ ⟨"admin", 5, "Administrator"⟩
      ⟨.DELETE, "/", [.verifyToken, .isAdmin], .delCategories⟩
      (by decide) rfl rfl (by rfl)).2.2.2 rfl).2.2.1⟩

end ElementosDeSeguridad
